import Mathlib

/-!
# Verification of `cdigraphlayout` (cdigraphlayoutcmd.py)

A shallow embedding of the command-line layout tool.  Python floats are
modelled as rationals (`ℚ`); the square root used for the derived bounding
box is an explicit function parameter, since no claim depends on its
numeric behaviour.  Fallible Python code is modelled with `Except PyErr`.

External collaborators (the `igraph` layout library, the `ndex2` parser and
the standard `argparse`/`re`/`float` machinery) are embedded only as far as
the repository's code and tests exercise them; each such definition carries
a comment naming its origin.
-/

namespace CDIGraphLayout

/-- A word character in the sense of the Python regex class used by
`re.split` in `_get_bounding_box_from_user_str` (ASCII fragment of Python's
Unicode-aware class): letters, digits and underscore. -/
def isWordChar (c : Char) : Bool := c.isAlphanum || c == '_'

/-- Embedding of `re.split` with the pattern used at
`cdigraphlayoutcmd.py:149` (a comma with arbitrary non-word characters
around it).  A maximal run of non-word characters containing at least one
comma is one separator; every other character belongs to a token.
Accumulators: `cur` is the token being built, `pend` the pending run of
non-word characters not yet known to be part of a separator, `hasComma`
whether `pend` contains a comma. -/
def pySplitGo : List Char → List Char → List Char → Bool → List (List Char)
  | [], cur, pend, hasComma =>
      if hasComma then [cur, []] else [cur ++ pend]
  | c :: cs, cur, pend, hasComma =>
      if isWordChar c then
        if hasComma then cur :: pySplitGo cs [c] [] false
        else pySplitGo cs (cur ++ pend ++ [c]) [] false
      else
        pySplitGo cs cur (pend ++ [c]) (hasComma || c == ',')

/-- Embedding of `re.split('\W*,\W*', s)` as called by
`_get_bounding_box_from_user_str`. -/
def pySplitWcommaW (s : String) : List String :=
  (pySplitGo s.toList [] [] false).map fun l => ⟨l⟩

/-- Value of a list of decimal digit characters. -/
def digitsVal (l : List Char) : ℕ := l.foldl (fun a c => 10 * a + (c.toNat - 48)) 0

/-- Parse an unsigned decimal mantissa (digits, optionally with a decimal
point; at least one digit overall), returning its value and the rest. -/
def parseMantissa (l : List Char) : Option (ℚ × List Char) :=
  let p := l.span Char.isDigit
  match p.2 with
  | '.' :: r2 =>
      let q := r2.span Char.isDigit
      if p.1.isEmpty && q.1.isEmpty then none
      else some ((digitsVal p.1 : ℚ) + (digitsVal q.1 : ℚ) / (10 : ℚ) ^ q.1.length, q.2)
  | _ => if p.1.isEmpty then none else some ((digitsVal p.1 : ℚ), p.2)

/-- Parse the digits of an exponent part (after `e`/`E`), with optional sign. -/
def parseExpPart : List Char → Option ℤ
  | [] => none
  | '+' :: r => if !r.isEmpty && r.all Char.isDigit then some (digitsVal r : ℤ) else none
  | '-' :: r => if !r.isEmpty && r.all Char.isDigit then some (-(digitsVal r : ℤ)) else none
  | r => if r.all Char.isDigit then some (digitsVal r : ℤ) else none

/-- Parse a float literal after the optional leading sign. -/
def pyFloatAfterSign (l : List Char) : Option ℚ :=
  match parseMantissa l with
  | none => none
  | some (m, rest) =>
    match rest with
    | [] => some m
    | 'e' :: r => (parseExpPart r).map fun e => m * (10 : ℚ) ^ e
    | 'E' :: r => (parseExpPart r).map fun e => m * (10 : ℚ) ^ e
    | _ => none

/-- Embedding of Python's `float(str)` on the decimal-literal fragment
relevant here: surrounding whitespace stripped, optional sign, digits with
optional decimal point and optional exponent.  (`inf`/`nan`/underscore
forms have no rational counterpart and are outside the model.)  Returns
`none` when Python's `float` would raise `ValueError`. -/
def pyFloatChars (l : List Char) : Option ℚ :=
  let t := ((l.dropWhile Char.isWhitespace).reverse.dropWhile Char.isWhitespace).reverse
  match t with
  | '+' :: r => pyFloatAfterSign r
  | '-' :: r => (pyFloatAfterSign r).map Neg.neg
  | r => pyFloatAfterSign r

/-- Python `float(s)` for a string `s`. -/
def pyFloat (s : String) : Option ℚ := pyFloatChars s.toList

/-- Python exceptions that the embedded code can raise. -/
inductive PyErr where
  | valueError (msg : String)
  | typeError (msg : String)
  | keyError (key : String)
  | indexError (msg : String)
deriving DecidableEq, Repr

/-- Python `str(e)` for the exceptions above (`str` of a `KeyError` shows the
repr of the key). -/
def PyErr.message : PyErr → String
  | .valueError m => m
  | .typeError m => m
  | .keyError k => "'" ++ k ++ "'"
  | .indexError m => m

/-- The `igraph.drawing.utils.BoundingBox` data: four float bounds. -/
structure BoundingBox where
  left : ℚ
  top : ℚ
  right : ℚ
  bottom : ℚ
deriving DecidableEq, Repr

/-- Constructing an `igraph` `BoundingBox` from four strings: each is
converted with `float`; a conversion failure raises
`ValueError('invalid coordinate format')` (behaviour pinned by the
repository's test `test_get_bounding_box_from_user_str`). -/
def boundingBoxOfStrs (a b c d : String) : Except PyErr BoundingBox :=
  match pyFloat a, pyFloat b, pyFloat c, pyFloat d with
  | some l, some t, some r, some bo => .ok ⟨l, t, r, bo⟩
  | _, _, _, _ => .error (.valueError "invalid coordinate format")

/-- Embedding of `_get_bounding_box_from_user_str` (cdigraphlayoutcmd.py:141-156) for a
non-`None` input string: split on `\W*,\W*`, require exactly four tokens,
then build the `BoundingBox` from the tokens. -/
def _get_bounding_box_from_user_str (inputstr : String) : Except PyErr BoundingBox :=
  let split_input := pySplitWcommaW inputstr
  if split_input.length = 4 then
    boundingBoxOfStrs (split_input.getD 0 "") (split_input.getD 1 "")
      (split_input.getD 2 "") (split_input.getD 3 "")
  else
    .error (.valueError
      ("Could not parse bounding box coordinates from input string: " ++ inputstr))

/-- Decidable equality for `Except`, so concrete runs can be checked. -/
instance {ε α : Type} [DecidableEq ε] [DecidableEq α] : DecidableEq (Except ε α) := fun x y =>
  match x, y with
  | .ok a, .ok b =>
      if h : a = b then .isTrue (by rw [h]) else .isFalse (by intro hh; cases hh; exact h rfl)
  | .error a, .error b =>
      if h : a = b then .isTrue (by rw [h]) else .isFalse (by intro hh; cases hh; exact h rfl)
  | .ok _, .error _ => .isFalse (by intro hh; cases hh)
  | .error _, .ok _ => .isFalse (by intro hh; cases hh)

/-- The constant `DEFAULT_BOX_SIZE` (cdigraphlayoutcmd.py:20). -/
def DEFAULT_BOX_SIZE : ℚ := 550

/-- The constant `DEFAULT_NODE_SIZE` (cdigraphlayoutcmd.py:26). -/
def DEFAULT_NODE_SIZE : ℚ := 75

/-- A scalar Python value as found in a CX aspect entry or used as a node
identifier (numbers and strings in practice). -/
inductive PyVal where
  | num (q : ℚ)
  | str (s : String)
  | boolean (b : Bool)
  | null
deriving DecidableEq, Repr

/-- Python `float(v)` on an aspect value: numbers pass through, strings are
parsed (`ValueError` on failure), anything else is a `TypeError`. -/
def pyFloatVal : PyVal → Except PyErr ℚ
  | .num q => .ok q
  | .str s =>
      match pyFloat s with
      | some q => .ok q
      | none => .error (.valueError ("could not convert string to float: " ++ s))
  | .boolean b => .ok (if b then 1 else 0)
  | _ => .error (.typeError "float() argument must be a string or a real number")

/-- One record of the `cyVisualProperties` opaque aspect: a target selector
(`properties_of`) and a name-to-value property map. -/
structure VPEntry where
  properties_of : String
  properties : List (String × PyVal)
deriving DecidableEq, Repr

/-- Python dictionary lookup `d[k]`: `KeyError` when the key is absent. -/
def dictGet (d : List (String × PyVal)) (k : String) : Except PyErr PyVal :=
  match d.lookup k with
  | some v => .ok v
  | none => .error (.keyError k)

/-- The parts of an `ndex2` `NiceCXNetwork` the program reads: the node
identifiers in the network's node order (as they reappear as `_nx_name`
after the networkx/igraph round trip), and the optional
`cyVisualProperties` opaque aspect. -/
structure NiceCXNetwork where
  nodeNames : List PyVal
  cyVisualProperties : Option (List VPEntry)
deriving DecidableEq, Repr

/-- The body executed for a matching entry of the visual-properties loop
(cdigraphlayoutcmd.py:104-106): `max(float(entry['properties']['NODE_WIDTH']),
float(...['NODE_HEIGHT']), float(...['NODE_SIZE']))`, with lookup and
conversion errors propagating in Python's left-to-right order. -/
def entrySize (e : VPEntry) : Except PyErr (Option ℚ) := do
  let w ← dictGet e.properties "NODE_WIDTH" >>= pyFloatVal
  let h ← dictGet e.properties "NODE_HEIGHT" >>= pyFloatVal
  let s ← dictGet e.properties "NODE_SIZE" >>= pyFloatVal
  return some (max w (max h s))

/-- The `for entry in v_props` loop of
`_get_node_size_from_cyvisual_properties` (cdigraphlayoutcmd.py:100-107):
skip entries whose `properties_of` is not `'nodes:default'`; return the
size from the first matching entry; `None` when no entry matches. -/
def sizeFromEntries : List VPEntry → Except PyErr (Option ℚ)
  | [] => .ok none
  | e :: rest =>
      if e.properties_of = "nodes:default" then entrySize e
      else sizeFromEntries rest

/-- Embedding of `_get_node_size_from_cyvisual_properties` (cdigraphlayoutcmd.py:81-107)
for a non-`None` network: `None` when the aspect is absent, otherwise the
loop above. -/
def _get_node_size_from_cyvisual_properties (net : NiceCXNetwork) :
    Except PyErr (Option ℚ) :=
  match net.cyVisualProperties with
  | none => .ok none
  | some v_props => sizeFromEntries v_props

/-- Embedding of `_get_bounding_box_based_on_node_size` (cdigraphlayoutcmd.py:110-138)
for a non-`None` network.  `sqrt` abstracts `math.sqrt`, whose numeric
behaviour no claim depends on. -/
def _get_bounding_box_based_on_node_size (sqrt : ℚ → ℚ) (net : NiceCXNetwork) :
    Except PyErr BoundingBox := do
  let num_nodes : ℚ := net.nodeNames.length
  let found ← _get_node_size_from_cyvisual_properties net
  let n_size := found.getD DEFAULT_NODE_SIZE
  let thesize := max DEFAULT_BOX_SIZE (sqrt (n_size * n_size * num_nodes))
  return ⟨0, 0, thesize, thesize⟩

/-- Parsed command-line arguments (the fields of the `argparse.Namespace`
produced by `_parse_arguments`). -/
structure Args where
  input : Option String
  layout : String
  scale : Option ℚ
  fit_into : Option String
deriving DecidableEq, Repr

/-- The bounding-box resolution step of `run_layout`
(cdigraphlayoutcmd.py:185-190): `bbox` stays `None` unless either neither
override is given (derived box) or `--fit_into` was given (parsed box). -/
def resolveBBox (sqrt : ℚ → ℚ) (theargs : Args) (net : NiceCXNetwork) :
    Except PyErr (Option BoundingBox) :=
  if theargs.scale = none ∧ theargs.fit_into = none then
    (_get_bounding_box_based_on_node_size sqrt net).map some
  else
    match theargs.fit_into with
    | some s => (_get_bounding_box_from_user_str s).map some
    | none => .ok none

/-- A JSON value as serialized by `json.dump`. -/
inductive Json where
  | num (q : ℚ)
  | str (s : String)
  | boolean (b : Bool)
  | null
  | arr (l : List Json)
  | obj (l : List (String × Json))

/-- Node identifiers (`_nx_name`) as they appear in the emitted JSON. -/
def PyVal.toJson : PyVal → Json
  | .num q => .num q
  | .str s => .str s
  | .boolean b => .boolean b
  | .null => .null

/-- One item written to a stream: either plain text (`stream.write`) or a
JSON document (`json.dump`). -/
inductive StreamItem where
  | text (s : String)
  | json (j : Json)

/-- A writable stream: the items written so far, and whether the stream has
been flushed since the last write. -/
structure IOStream where
  items : List StreamItem
  flushed : Bool

/-- Python `stream.write(s)`. -/
def IOStream.write (st : IOStream) (s : String) : IOStream :=
  ⟨st.items ++ [.text s], false⟩

/-- Python `json.dump(j, stream)`. -/
def IOStream.dumpJson (st : IOStream) (j : Json) : IOStream :=
  ⟨st.items ++ [.json j], false⟩

/-- Python `stream.flush()`. -/
def IOStream.flush (st : IOStream) : IOStream :=
  ⟨st.items, true⟩

/-- The external collaborators of `run_layout`, abstracted: the filesystem
checks, the `ndex2` parser (returning a network and the text it prints to
the redirected standard output), `math.sqrt`, the igraph layout algorithm
(raw coordinates per node, in node order), and igraph's
`Layout.fit_into`. -/
structure LayoutEnv where
  isfile : String → Bool
  getsize : String → ℕ
  parse : String → Except PyErr (NiceCXNetwork × String)
  sqrt : ℚ → ℚ
  layoutAlg : NiceCXNetwork → String → Except PyErr (List (ℚ × ℚ))
  fitIntoBox : List (ℚ × ℚ) → BoundingBox → List (ℚ × ℚ)

/-- The coordinate-record loop of `run_layout`
(cdigraphlayoutcmd.py:207-216): for each index of `layout.coords`, pair
`g.vs[x]['_nx_name']` with the x and y coordinates (the y value is taken
as is: the source deliberately does not negate it).  Indexing past the
vertex list raises an `IndexError`. -/
def buildRecords : List PyVal → List (ℚ × ℚ) → Except PyErr (List Json)
  | _, [] => .ok []
  | [], _ :: _ => .error (.indexError "vertex index out of range")
  | n :: ns, c :: cs => do
      let rest ← buildRecords ns cs
      return Json.obj [("node", n.toJson), ("x", .num c.1), ("y", .num c.2)] :: rest

/-- The coordinate transform of `run_layout` (cdigraphlayoutcmd.py:198-205):
`layout.scale(theargs.scale)` when a scale factor was given (each
coordinate multiplied by the factor, per igraph's `Layout.scale`),
otherwise `layout.fit_into(bbox)`; the latter raises a `TypeError` when
`bbox` is `None` (unreachable from the command line). -/
def transformedCoords (env : LayoutEnv) (theargs : Args)
    (bbox : Option BoundingBox) (coords : List (ℚ × ℚ)) :
    Except PyErr (List (ℚ × ℚ)) :=
  match theargs.scale with
  | some k => .ok (coords.map fun c => (k * c.1, k * c.2))
  | none =>
      match bbox with
      | some b => .ok (env.fitIntoBox coords b)
      | none => .error (.typeError "argument must be a BoundingBox")

/-- The `try` block of `run_layout` (cdigraphlayoutcmd.py:182-220): parse
the network (its print output going to the error stream via
`redirect_stdout(sys.stderr)`), resolve the bounding box, run the layout,
scale or fit the coordinates, and dump the records as one JSON array to the
output stream; any raised exception yields its message on the error stream
and status 5. -/
def runLayoutTry (env : LayoutEnv) (theargs : Args) (input : String)
    (outS errS : IOStream) : ℕ × IOStream × IOStream :=
  match env.parse input with
  | .error e => (5, outS, errS.write e.message)
  | .ok (net, plog) =>
    let errS := errS.write plog
    match resolveBBox env.sqrt theargs net with
    | .error e => (5, outS, errS.write e.message)
    | .ok bbox =>
      match env.layoutAlg net theargs.layout with
      | .error e => (5, outS, errS.write e.message)
      | .ok coords =>
        match transformedCoords env theargs bbox coords with
        | .error e => (5, outS, errS.write e.message)
        | .ok coords2 =>
          match buildRecords net.nodeNames coords2 with
          | .error e => (5, outS, errS.write e.message)
          | .ok recs => (0, outS.dumpJson (.arr recs), errS)

/-- Embedding of `run_layout` (cdigraphlayoutcmd.py:159-226): validate the input path
(status 3/4, written to the error stream, before any parsing), then run
the `try` block above; the `finally` clause flushes both streams on every
path through the `try` block.  Returns the status code and the final
states of the output and error streams. -/
def run_layout (env : LayoutEnv) (theargs : Args) (outS errS : IOStream) :
    ℕ × IOStream × IOStream :=
  match theargs.input with
  | none => (3, outS, errS.write "None is not a file")
  | some input =>
    if ¬ env.isfile input then
      (3, outS, errS.write (input ++ " is not a file"))
    else if env.getsize input = 0 then
      (4, outS, errS.write (input ++ " is an empty file"))
    else
      let r := runLayoutTry env theargs input outS errS
      (r.1, r.2.1.flush, r.2.2.flush)

/-- The `choices` of the `--layout` option (cdigraphlayoutcmd.py:61-63). -/
def layoutChoices : List String :=
  ["auto", "circle", "drl", "fr", "kk", "lgl", "random", "rt", "rt_circular"]

/-- Does a token have the `--` option prefix?  (`argparse` classifies
tokens beginning with its prefix character as option strings; the options
defined here all use the two-dash form.) -/
def isLongOption (tok : String) : Bool :=
  match tok.toList with
  | '-' :: '-' :: _ => true
  | _ => false

/-- Mutable parser state while scanning the command line. -/
structure ArgState where
  input : Option String
  layout : String
  scale : Option ℚ
  fit_into : Option String
deriving DecidableEq, Repr

/-- Token-by-token processing of the command line by the parser built in
`_parse_arguments` (cdigraphlayoutcmd.py:44-78), following `argparse`
semantics for this option set: `--layout` takes one argument restricted to
its choices, `--scale` takes one float argument, `--fit_into` one string
argument, one positional `input` is accepted, and — because `--scale` and
`--fit_into` belong to one mutually exclusive group — encountering either
one after the other has already been seen is an error (`argparse` converts
the option's value first, then checks the group). -/
def parseArgsGo : List String → ArgState → Except String ArgState
  | [], st => .ok st
  | "--layout" :: rest, st =>
      match rest with
      | [] => .error "argument --layout: expected one argument"
      | v :: rest2 =>
          if v ∈ layoutChoices then parseArgsGo rest2 { st with layout := v }
          else .error ("argument --layout: invalid choice: " ++ v)
  | "--scale" :: rest, st =>
      match rest with
      | [] => .error "argument --scale: expected one argument"
      | v :: rest2 =>
          match pyFloat v with
          | none => .error ("argument --scale: invalid float value: " ++ v)
          | some q =>
              if st.fit_into.isSome then
                .error "argument --scale: not allowed with argument --fit_into"
              else parseArgsGo rest2 { st with scale := some q }
  | "--fit_into" :: rest, st =>
      match rest with
      | [] => .error "argument --fit_into: expected one argument"
      | v :: rest2 =>
          if st.scale.isSome then
            .error "argument --fit_into: not allowed with argument --scale"
          else parseArgsGo rest2 { st with fit_into := some v }
  | tok :: rest, st =>
      if isLongOption tok then .error ("unrecognized arguments: " ++ tok)
      else
        match st.input with
        | none => parseArgsGo rest { st with input := some tok }
        | some _ => .error ("unrecognized arguments: " ++ tok)

/-- Embedding of `_parse_arguments` (cdigraphlayoutcmd.py:44-78): scan the command line
from the default state; the positional `input` argument is required. -/
def _parse_arguments (args : List String) : Except String Args :=
  match parseArgsGo args ⟨none, "auto", none, none⟩ with
  | .error e => .error e
  | .ok st =>
      match st.input with
      | none => .error "the following arguments are required: input"
      | some i => .ok ⟨some i, st.layout, st.scale, st.fit_into⟩

/-! ## Helper lemmas -/

/-- Entries that do not target `'nodes:default'` are skipped by the
visual-properties loop. -/
theorem sizeFromEntries_skip (pre rest : List VPEntry)
    (hpre : ∀ e ∈ pre, e.properties_of ≠ "nodes:default") :
    sizeFromEntries (pre ++ rest) = sizeFromEntries rest := by
  induction pre with
  | nil => rfl
  | cons a l ih =>
      have ha : a.properties_of ≠ "nodes:default" := hpre a (by simp)
      have : ∀ e ∈ l, e.properties_of ≠ "nodes:default" := fun e he => hpre e (by simp [he])
      simp [sizeFromEntries, ha, ih this]

/-- The record loop pairs node names with coordinates positionally. -/
theorem buildRecords_zip (names : List PyVal) (coords : List (ℚ × ℚ))
    (h : names.length = coords.length) :
    buildRecords names coords =
      .ok (List.zipWith
        (fun n c => Json.obj [("node", PyVal.toJson n), ("x", .num c.1), ("y", .num c.2)])
        names coords) := by
  induction names generalizing coords with
  | nil =>
      cases coords with
      | nil => rfl
      | cons c cs => simp at h
  | cons n ns ih =>
      cases coords with
      | nil => simp at h
      | cons c cs =>
          have h' : ns.length = cs.length := by simpa using h
          simp [buildRecords, ih cs h', Bind.bind, Except.bind, Pure.pure, Except.pure]

/-! ## C1: the derived default bounding box -/

/-- C1: when neither an explicit scale factor nor an explicit rectangle is
given, the resolved bounding box is anchored at (0,0) with lower-right
corner (side, side), side = max(550.0, sqrt(node_size² × node_count)),
where node_size is the estimator's result or 75.0 when the estimator
reports not found; in particular, with no visual-properties aspect,
side = max(550.0, sqrt(75.0² × N)) for a graph with N nodes. -/
theorem claim_C1 (sqrt : ℚ → ℚ) (theargs : Args) (net : NiceCXNetwork) (nsz : Option ℚ)
    (hs : theargs.scale = none) (hf : theargs.fit_into = none)
    (hn : _get_node_size_from_cyvisual_properties net = .ok nsz) :
    resolveBBox sqrt theargs net =
      .ok (some ⟨0, 0,
        max 550 (sqrt (nsz.getD 75 * nsz.getD 75 * net.nodeNames.length)),
        max 550 (sqrt (nsz.getD 75 * nsz.getD 75 * net.nodeNames.length))⟩) ∧
    (net.cyVisualProperties = none →
      resolveBBox sqrt theargs net =
        .ok (some ⟨0, 0,
          max 550 (sqrt (75 * 75 * net.nodeNames.length)),
          max 550 (sqrt (75 * 75 * net.nodeNames.length))⟩)) := by
  constructor
  · simp [resolveBBox, hs, hf, _get_bounding_box_based_on_node_size, hn,
      Bind.bind, Except.bind, Except.map, Pure.pure, Except.pure,
      DEFAULT_BOX_SIZE, DEFAULT_NODE_SIZE]
  · intro habs
    have hnone : _get_node_size_from_cyvisual_properties net = .ok none := by
      simp [_get_node_size_from_cyvisual_properties, habs]
    simp [resolveBBox, hs, hf, _get_bounding_box_based_on_node_size, hnone,
      Bind.bind, Except.bind, Except.map, Pure.pure, Except.pure,
      DEFAULT_BOX_SIZE, DEFAULT_NODE_SIZE]

/-- Witness for C1 at a concrete two-node network with no
visual-properties aspect and `sqrt` instantiated with the identity. -/
theorem claim_C1_witness :
    resolveBBox id ⟨some "graph.cx", "auto", none, none⟩
        ⟨[PyVal.num 1, PyVal.num 2], none⟩ =
      .ok (some ⟨0, 0, 11250, 11250⟩) := by
  have h := (claim_C1 id ⟨some "graph.cx", "auto", none, none⟩
      ⟨[PyVal.num 1, PyVal.num 2], none⟩ none rfl rfl rfl).1
  rw [h]
  norm_num

/-! ## C4: the node-size estimator -/

/-- C4: the node-size estimator returns not-found (`None`) when the
visual-properties aspect is absent or when no record targets the
default-node selector; otherwise it returns the maximum of the first
matching record's width, height and size fields interpreted as floats,
and a non-numeric value in any of those three fields makes it fail with a
propagating parse/type error. -/
theorem claim_C4 :
    (∀ net : NiceCXNetwork, net.cyVisualProperties = none →
      _get_node_size_from_cyvisual_properties net = .ok none) ∧
    (∀ (names : List PyVal) (entries : List VPEntry),
      (∀ e ∈ entries, e.properties_of ≠ "nodes:default") →
      _get_node_size_from_cyvisual_properties ⟨names, some entries⟩ = .ok none) ∧
    (∀ (names : List PyVal) (pre post : List VPEntry) (e : VPEntry)
        (w h s : PyVal) (vw vh vs : ℚ),
      (∀ e' ∈ pre, e'.properties_of ≠ "nodes:default") →
      e.properties_of = "nodes:default" →
      e.properties.lookup "NODE_WIDTH" = some w → pyFloatVal w = .ok vw →
      e.properties.lookup "NODE_HEIGHT" = some h → pyFloatVal h = .ok vh →
      e.properties.lookup "NODE_SIZE" = some s → pyFloatVal s = .ok vs →
      _get_node_size_from_cyvisual_properties ⟨names, some (pre ++ e :: post)⟩ =
        .ok (some (max vw (max vh vs)))) ∧
    (∀ (names : List PyVal) (pre post : List VPEntry) (e : VPEntry)
        (w : PyVal) (err : PyErr),
      (∀ e' ∈ pre, e'.properties_of ≠ "nodes:default") →
      e.properties_of = "nodes:default" →
      e.properties.lookup "NODE_WIDTH" = some w → pyFloatVal w = .error err →
      _get_node_size_from_cyvisual_properties ⟨names, some (pre ++ e :: post)⟩ =
        .error err) ∧
    (∀ (names : List PyVal) (pre post : List VPEntry) (e : VPEntry)
        (w h : PyVal) (vw : ℚ) (err : PyErr),
      (∀ e' ∈ pre, e'.properties_of ≠ "nodes:default") →
      e.properties_of = "nodes:default" →
      e.properties.lookup "NODE_WIDTH" = some w → pyFloatVal w = .ok vw →
      e.properties.lookup "NODE_HEIGHT" = some h → pyFloatVal h = .error err →
      _get_node_size_from_cyvisual_properties ⟨names, some (pre ++ e :: post)⟩ =
        .error err) ∧
    (∀ (names : List PyVal) (pre post : List VPEntry) (e : VPEntry)
        (w h s : PyVal) (vw vh : ℚ) (err : PyErr),
      (∀ e' ∈ pre, e'.properties_of ≠ "nodes:default") →
      e.properties_of = "nodes:default" →
      e.properties.lookup "NODE_WIDTH" = some w → pyFloatVal w = .ok vw →
      e.properties.lookup "NODE_HEIGHT" = some h → pyFloatVal h = .ok vh →
      e.properties.lookup "NODE_SIZE" = some s → pyFloatVal s = .error err →
      _get_node_size_from_cyvisual_properties ⟨names, some (pre ++ e :: post)⟩ =
        .error err) := by
  refine ⟨?_, ?_, ?_, ?_, ?_, ?_⟩
  · intro net habs
    simp [_get_node_size_from_cyvisual_properties, habs]
  · intro names entries hno
    show sizeFromEntries entries = .ok none
    have := sizeFromEntries_skip entries [] hno
    simpa using this
  · intro names pre post e w h s vw vh vs hpre hmatch hw hvw hh hvh hs hvs
    show sizeFromEntries (pre ++ e :: post) = .ok (some (max vw (max vh vs)))
    rw [sizeFromEntries_skip pre (e :: post) hpre]
    simp [sizeFromEntries, hmatch, entrySize, dictGet, hw, hvw, hh, hvh, hs, hvs,
      Bind.bind, Except.bind, Pure.pure, Except.pure]
  · intro names pre post e w err hpre hmatch hw hvw
    show sizeFromEntries (pre ++ e :: post) = .error err
    rw [sizeFromEntries_skip pre (e :: post) hpre]
    simp [sizeFromEntries, hmatch, entrySize, dictGet, hw, hvw,
      Bind.bind, Except.bind]
  · intro names pre post e w h vw err hpre hmatch hw hvw hh hvh
    show sizeFromEntries (pre ++ e :: post) = .error err
    rw [sizeFromEntries_skip pre (e :: post) hpre]
    simp [sizeFromEntries, hmatch, entrySize, dictGet, hw, hvw, hh, hvh,
      Bind.bind, Except.bind]
  · intro names pre post e w h s vw vh err hpre hmatch hw hvw hh hvh hs hvs
    show sizeFromEntries (pre ++ e :: post) = .error err
    rw [sizeFromEntries_skip pre (e :: post) hpre]
    simp [sizeFromEntries, hmatch, entrySize, dictGet, hw, hvw, hh, hvh, hs, hvs,
      Bind.bind, Except.bind]

/-- Witness for C4 at concrete networks: an aspect-free network, a
matching record with width 30, height 40, size 20 (maximum 40), and a
matching record whose width is the non-numeric string `'abc'`. -/
theorem claim_C4_witness :
    _get_node_size_from_cyvisual_properties ⟨[PyVal.num 7], none⟩ = .ok none ∧
    _get_node_size_from_cyvisual_properties
      ⟨[], some [⟨"edges:default", []⟩,
                 ⟨"nodes:default", [("NODE_WIDTH", PyVal.num 30),
                                    ("NODE_HEIGHT", PyVal.num 40),
                                    ("NODE_SIZE", PyVal.num 20)]⟩]⟩ =
      .ok (some 40) ∧
    _get_node_size_from_cyvisual_properties
      ⟨[], some [⟨"nodes:default", [("NODE_WIDTH", PyVal.str "abc"),
                                    ("NODE_HEIGHT", PyVal.num 40),
                                    ("NODE_SIZE", PyVal.num 20)]⟩]⟩ =
      .error (.valueError "could not convert string to float: abc") := by
  refine ⟨claim_C4.1 _ rfl, ?_, ?_⟩
  · have h := claim_C4.2.2.1 []
      [⟨"edges:default", []⟩] [] ⟨"nodes:default",
        [("NODE_WIDTH", PyVal.num 30), ("NODE_HEIGHT", PyVal.num 40),
         ("NODE_SIZE", PyVal.num 20)]⟩
      (PyVal.num 30) (PyVal.num 40) (PyVal.num 20) 30 40 20
      (by intro e' he'; simp at he'; simp [he']) rfl rfl rfl rfl rfl rfl rfl
    have h2 : (30 : ℚ) ⊔ (40 ⊔ 20) = 40 := by norm_num [max_def]
    simpa [h2] using h
  · exact claim_C4.2.2.2.1 [] [] [] _ (PyVal.str "abc") _
      (by intro e' he'; simp at he') rfl rfl rfl

/-! ## C10: only the first matching visual-properties record counts -/

/-- C10: when the visual-properties aspect contains more than one record
targeting `'nodes:default'`, the estimator's result is determined solely
by the first such record; all later records (matching or not) are
ignored. -/
theorem claim_C10 (names : List PyVal) (pre post1 post2 : List VPEntry) (e : VPEntry)
    (hpre : ∀ e' ∈ pre, e'.properties_of ≠ "nodes:default")
    (hmatch : e.properties_of = "nodes:default") :
    _get_node_size_from_cyvisual_properties ⟨names, some (pre ++ e :: post1)⟩ =
      entrySize e ∧
    _get_node_size_from_cyvisual_properties ⟨names, some (pre ++ e :: post1)⟩ =
      _get_node_size_from_cyvisual_properties ⟨names, some (pre ++ e :: post2)⟩ := by
  have key : ∀ post : List VPEntry,
      _get_node_size_from_cyvisual_properties ⟨names, some (pre ++ e :: post)⟩ =
        entrySize e := by
    intro post
    show sizeFromEntries (pre ++ e :: post) = entrySize e
    rw [sizeFromEntries_skip pre (e :: post) hpre]
    simp [sizeFromEntries, hmatch]
  exact ⟨key post1, (key post1).trans (key post2).symm⟩

/-- Witness for C10: a second `'nodes:default'` record with a different
size is ignored. -/
theorem claim_C10_witness :
    _get_node_size_from_cyvisual_properties
      ⟨[], some [⟨"nodes:default", [("NODE_WIDTH", PyVal.num 10),
                                    ("NODE_HEIGHT", PyVal.num 10),
                                    ("NODE_SIZE", PyVal.num 10)]⟩,
                 ⟨"nodes:default", [("NODE_WIDTH", PyVal.num 99),
                                    ("NODE_HEIGHT", PyVal.num 99),
                                    ("NODE_SIZE", PyVal.num 99)]⟩]⟩ =
      entrySize ⟨"nodes:default", [("NODE_WIDTH", PyVal.num 10),
                                   ("NODE_HEIGHT", PyVal.num 10),
                                   ("NODE_SIZE", PyVal.num 10)]⟩ :=
  (claim_C10 [] [] [⟨"nodes:default", [("NODE_WIDTH", PyVal.num 99),
      ("NODE_HEIGHT", PyVal.num 99), ("NODE_SIZE", PyVal.num 99)]⟩] []
    ⟨"nodes:default", [("NODE_WIDTH", PyVal.num 10), ("NODE_HEIGHT", PyVal.num 10),
      ("NODE_SIZE", PyVal.num 10)]⟩
    (by intro e' he'; simp at he') rfl).1

/-! ## C2: well-formed rectangle strings -/

/-- A token that the separator regex leaves intact: nonempty, free of
commas, and beginning and ending with a word character. -/
def goodTok : List Char → Prop
  | [] => False
  | d :: rest => isWordChar d = true ∧
      isWordChar ((d :: rest).getLast (List.cons_ne_nil d rest)) = true ∧
      ',' ∉ d :: rest

/-- Padding that a separator absorbs: non-word characters other than the
comma itself (in particular any whitespace). -/
def sepPad (w : List Char) : Prop := ∀ c ∈ w, isWordChar c = false ∧ c ≠ ','

/-- One scan step: a word character with no separator pending moves the
pending run and the character into the current token. -/
theorem pySplitGo_cons_word (c : Char) (cs cur pend : List Char)
    (h : isWordChar c = true) :
    pySplitGo (c :: cs) cur pend false = pySplitGo cs (cur ++ pend ++ [c]) [] false := by
  simp [pySplitGo, h]

/-- One scan step: a word character with a separator pending closes the
current token and starts a new one. -/
theorem pySplitGo_cons_word_sep (c : Char) (cs cur pend : List Char)
    (h : isWordChar c = true) :
    pySplitGo (c :: cs) cur pend true = cur :: pySplitGo cs [c] [] false := by
  simp [pySplitGo, h]

/-- One scan step: a non-word character joins the pending run. -/
theorem pySplitGo_cons_nonword (c : Char) (cs cur pend : List Char) (hc : Bool)
    (h : isWordChar c = false) :
    pySplitGo (c :: cs) cur pend hc = pySplitGo cs cur (pend ++ [c]) (hc || c == ',') := by
  simp [pySplitGo, h]

/-- Separator padding is absorbed into the pending run. -/
theorem pySplitGo_pad (w : List Char) (hw : sepPad w) :
    ∀ (rest cur pend : List Char) (hc : Bool),
      pySplitGo (w ++ rest) cur pend hc = pySplitGo rest cur (pend ++ w) hc := by
  induction w with
  | nil => intro rest cur pend hc; simp
  | cons c w' ih =>
      intro rest cur pend hc
      have hcw : isWordChar c = false := (hw c (by simp)).1
      have hcc : (c == ',') = false := by
        simp [hw c (by simp) |>.2]
      have hw' : sepPad w' := fun d hd => hw d (by simp [hd])
      rw [List.cons_append, pySplitGo_cons_nonword c (w' ++ rest) cur pend hc hcw,
        hcc, Bool.or_false, ih hw' rest cur (pend ++ [c]) hc, List.append_assoc,
        List.singleton_append]

/-- A comma extends the pending run and marks it as a separator. -/
theorem pySplitGo_comma (rest cur pend : List Char) (hc : Bool) :
    pySplitGo (',' :: rest) cur pend hc = pySplitGo rest cur (pend ++ [',']) true := by
  simp [pySplitGo, isWordChar]

/-- While no separator is pending, a comma-free chunk ending in a word
character is appended (with the pending non-word run before it) to the
current token. -/
theorem pySplitGo_tok (tok : List Char) (hne : tok ≠ [])
    (hlast : isWordChar (tok.getLast hne) = true) (hnc : ',' ∉ tok) :
    ∀ (rest cur pend : List Char),
      pySplitGo (tok ++ rest) cur pend false =
        pySplitGo rest (cur ++ pend ++ tok) [] false := by
  induction tok with
  | nil => cases hne rfl
  | cons d t ih =>
      intro rest cur pend
      cases t with
      | nil =>
          have hd : isWordChar d = true := by simpa using hlast
          rw [List.cons_append, List.nil_append, pySplitGo_cons_word d rest cur pend hd]
      | cons d2 t2 =>
          have hne2 : d2 :: t2 ≠ [] := List.cons_ne_nil d2 t2
          have hlast2 : isWordChar ((d2 :: t2).getLast hne2) = true := by
            simpa [List.getLast_cons] using hlast
          have hnc2 : ',' ∉ d2 :: t2 := fun hmem => hnc (by simp [hmem])
          by_cases hd : isWordChar d = true
          · rw [List.cons_append,
              pySplitGo_cons_word d (d2 :: t2 ++ rest) cur pend hd,
              ih hne2 hlast2 hnc2 rest (cur ++ pend ++ [d]) []]
            simp
          · have hdf : isWordChar d = false := by simpa using hd
            have hdc : (d == ',') = false := by
              have hdne : d ≠ ',' := fun hdcc => hnc (by simp [hdcc])
              simp [hdne]
            rw [List.cons_append,
              pySplitGo_cons_nonword d (d2 :: t2 ++ rest) cur pend false hdf,
              hdc, Bool.or_false, ih hne2 hlast2 hnc2 rest cur (pend ++ [d])]
            simp

/-- When a separator is pending, the first word character closes the
current token and starts the next one; a whole good token is consumed into
the new token. -/
theorem pySplitGo_tok_after_sep (tok : List Char) (hgood : goodTok tok) :
    ∀ (rest cur pend : List Char),
      pySplitGo (tok ++ rest) cur pend true =
        cur :: pySplitGo rest tok [] false := by
  cases tok with
  | nil => cases hgood
  | cons d t =>
      obtain ⟨hd, hlast, hnc⟩ := hgood
      intro rest cur pend
      rw [List.cons_append, pySplitGo_cons_word_sep d (t ++ rest) cur pend hd]
      cases t with
      | nil => rw [List.nil_append]
      | cons d2 t2 =>
          have hne2 : d2 :: t2 ≠ [] := List.cons_ne_nil d2 t2
          have hlast2 : isWordChar ((d2 :: t2).getLast hne2) = true := by
            simpa [List.getLast_cons] using hlast
          have hnc2 : ',' ∉ d2 :: t2 := fun hmem => hnc (by simp [hmem])
          rw [pySplitGo_tok (d2 :: t2) hne2 hlast2 hnc2 rest [d] []]
          simp

/-- The last token: with a separator pending and no input beyond the
token, the scan emits the closed token and then the final one. -/
theorem pySplitGo_last_tok (tok : List Char) (hgood : goodTok tok) (cur pend : List Char) :
    pySplitGo tok cur pend true = [cur, tok] := by
  have h := pySplitGo_tok_after_sep tok hgood [] cur pend
  rw [List.append_nil] at h
  rw [h]
  simp [pySplitGo]

/-- The split of a four-token rectangle list. -/
theorem pySplit_four (c1 c2 c3 c4 w1 w2 w3 w4 w5 w6 : List Char)
    (h1 : goodTok c1) (h2 : goodTok c2) (h3 : goodTok c3) (h4 : goodTok c4)
    (p1 : sepPad w1) (p2 : sepPad w2) (p3 : sepPad w3)
    (p4 : sepPad w4) (p5 : sepPad w5) (p6 : sepPad w6) :
    pySplitGo (c1 ++ w1 ++ [','] ++ w2 ++ c2 ++ w3 ++ [','] ++ w4 ++ c3 ++
        w5 ++ [','] ++ w6 ++ c4) [] [] false = [c1, c2, c3, c4] := by
  have hne1 : c1 ≠ [] := by cases c1 with | nil => cases h1 | cons d t => exact List.cons_ne_nil d t
  have hlast1 : isWordChar (c1.getLast hne1) = true := by
    cases c1 with | nil => cases h1 | cons d t => exact h1.2.1
  have hnc1 : ',' ∉ c1 := by
    cases c1 with | nil => cases h1 | cons d t => exact h1.2.2
  simp only [List.append_assoc, List.cons_append, List.nil_append]
  rw [pySplitGo_tok c1 hne1 hlast1 hnc1]
  rw [pySplitGo_pad w1 p1]
  rw [pySplitGo_comma]
  rw [pySplitGo_pad w2 p2]
  rw [pySplitGo_tok_after_sep c2 h2]
  rw [pySplitGo_pad w3 p3]
  rw [pySplitGo_comma]
  rw [pySplitGo_pad w4 p4]
  rw [pySplitGo_tok_after_sep c3 h3]
  rw [pySplitGo_pad w5 p5]
  rw [pySplitGo_comma]
  rw [pySplitGo_pad w6 p6]
  rw [pySplitGo_last_tok c4 h4 c3 _]
  simp

/-- Counterexample to C2 as stated: in `"1,-2,3,4"` all four components
are numeric and there is no whitespace, yet the resolver returns the box
(1, 2, 3, 4) — the separator regex `\W*,\W*` absorbs the minus sign —
and not the box (1, -2, 3, 4). -/
theorem claim_C2_counterexample :
    pyFloat "1" = some 1 ∧ pyFloat "-2" = some (-2) ∧
    pyFloat "3" = some 3 ∧ pyFloat "4" = some 4 ∧
    _get_bounding_box_from_user_str "1,-2,3,4" = .ok ⟨1, 2, 3, 4⟩ ∧
    _get_bounding_box_from_user_str "1,-2,3,4" ≠ .ok ⟨1, -2, 3, 4⟩ := by
  refine ⟨rfl, rfl, rfl, rfl, rfl, ?_⟩
  intro h
  rw [show _get_bounding_box_from_user_str "1,-2,3,4" =
      .ok ⟨1, 2, 3, 4⟩ from rfl] at h
  simp only [Except.ok.injEq, BoundingBox.mk.injEq] at h
  exact absurd h.2.1 (by norm_num)

/-- C2 (amended): for every rectangle string built from four numeric
components that begin and end with a word character (so are in particular
unsigned), separated by commas each padded with arbitrary non-word,
non-comma characters (e.g. whitespace), and describing a left-to-right,
top-to-bottom ordered rectangle, the resolver returns a box whose four
bounds are exactly those four values in the order left, top, right,
bottom. -/
theorem claim_C2_amended (c1 c2 c3 c4 w1 w2 w3 w4 w5 w6 : List Char) (v1 v2 v3 v4 : ℚ)
    (h1 : goodTok c1) (h2 : goodTok c2) (h3 : goodTok c3) (h4 : goodTok c4)
    (p1 : sepPad w1) (p2 : sepPad w2) (p3 : sepPad w3)
    (p4 : sepPad w4) (p5 : sepPad w5) (p6 : sepPad w6)
    (hv1 : pyFloatChars c1 = some v1) (hv2 : pyFloatChars c2 = some v2)
    (hv3 : pyFloatChars c3 = some v3) (hv4 : pyFloatChars c4 = some v4)
    (hord1 : v1 ≤ v3) (hord2 : v2 ≤ v4) :
    _get_bounding_box_from_user_str
        ⟨c1 ++ w1 ++ [','] ++ w2 ++ c2 ++ w3 ++ [','] ++ w4 ++ c3 ++
          w5 ++ [','] ++ w6 ++ c4⟩ =
      .ok ⟨v1, v2, v3, v4⟩ := by
  unfold _get_bounding_box_from_user_str pySplitWcommaW
  rw [show (⟨c1 ++ w1 ++ [','] ++ w2 ++ c2 ++ w3 ++ [','] ++ w4 ++ c3 ++
        w5 ++ [','] ++ w6 ++ c4⟩ : String).toList =
      c1 ++ w1 ++ [','] ++ w2 ++ c2 ++ w3 ++ [','] ++ w4 ++ c3 ++
        w5 ++ [','] ++ w6 ++ c4 from rfl,
    pySplit_four c1 c2 c3 c4 w1 w2 w3 w4 w5 w6 h1 h2 h3 h4 p1 p2 p3 p4 p5 p6]
  simp [boundingBoxOfStrs, pyFloat, String.toList, hv1, hv2, hv3, hv4]

/-- Witness for C2 (amended) at the concrete string `"10 , 20,30 ,40"`. -/
theorem claim_C2_witness :
    _get_bounding_box_from_user_str "10 , 20,30 ,40" = .ok ⟨10, 20, 30, 40⟩ := by
  have hpad : sepPad [' '] := by
    intro c hc
    rw [List.mem_singleton] at hc
    subst hc
    exact ⟨rfl, by decide⟩
  have hpad0 : sepPad [] := by intro c hc; cases hc
  have h := claim_C2_amended ['1', '0'] ['2', '0'] ['3', '0'] ['4', '0']
      [' '] [' '] [] [] [' '] [] 10 20 30 40
      ⟨rfl, rfl, by decide⟩ ⟨rfl, rfl, by decide⟩ ⟨rfl, rfl, by decide⟩ ⟨rfl, rfl, by decide⟩
      hpad hpad hpad0 hpad0 hpad hpad0
      rfl rfl rfl rfl (by norm_num) (by norm_num)
  exact h

/-! ## C3: malformed rectangle strings -/

/-- A non-numeric token among exactly four makes the `BoundingBox`
constructor raise igraph's fixed `'invalid coordinate format'` error. -/
theorem boundingBoxOfStrs_none (a b c d : String)
    (h : pyFloat a = none ∨ pyFloat b = none ∨ pyFloat c = none ∨ pyFloat d = none) :
    boundingBoxOfStrs a b c d = .error (.valueError "invalid coordinate format") := by
  unfold boundingBoxOfStrs
  cases hpa : pyFloat a <;> cases hpb : pyFloat b <;>
    cases hpc : pyFloat c <;> cases hpd : pyFloat d <;> simp_all

/-- Counterexample to C3 as stated: `"1,b,c,d"` splits into four tokens
with the non-numeric token `"b"`, and resolution does fail — but with the
message `'invalid coordinate format'`, which does not contain the original
input string verbatim. -/
theorem claim_C3_counterexample :
    pySplitWcommaW "1,b,c,d" = ["1", "b", "c", "d"] ∧
    pyFloat "b" = none ∧
    _get_bounding_box_from_user_str "1,b,c,d" =
      .error (.valueError "invalid coordinate format") ∧
    ¬ "1,b,c,d".toList <:+: "invalid coordinate format".toList := by
  refine ⟨rfl, rfl, rfl, by decide⟩

/-- C3 (amended): when the rectangle string does not split into exactly
four tokens, resolution fails with an error containing the original input
string verbatim; when it splits into four tokens one of which is
non-numeric, resolution fails with the fixed `'invalid coordinate format'`
error (which in general does not contain the input). -/
theorem claim_C3_amended (s : String) :
    ((pySplitWcommaW s).length ≠ 4 →
      _get_bounding_box_from_user_str s =
        .error (.valueError
          ("Could not parse bounding box coordinates from input string: " ++ s)) ∧
      s.toList <:+:
        ("Could not parse bounding box coordinates from input string: " ++ s).toList) ∧
    (∀ a b c d : String, pySplitWcommaW s = [a, b, c, d] →
      (pyFloat a = none ∨ pyFloat b = none ∨ pyFloat c = none ∨ pyFloat d = none) →
      _get_bounding_box_from_user_str s =
        .error (.valueError "invalid coordinate format")) := by
  constructor
  · intro hlen
    refine ⟨by simp [_get_bounding_box_from_user_str, hlen], ?_⟩
    have hsuf : s.toList <:+
        ("Could not parse bounding box coordinates from input string: ".toList
          ++ s.toList) := List.suffix_append _ _
    exact List.IsSuffix.isInfix hsuf
  · intro a b c d hsp hnone
    have hlen : (pySplitWcommaW s).length = 4 := by rw [hsp]; rfl
    simp only [_get_bounding_box_from_user_str, hlen, if_true, hsp]
    simpa [List.getD] using boundingBoxOfStrs_none a b c d hnone

/-- Witness for C3 (amended): the two-token string `"1,2"` and the
four-token string `"1,b,c,d"`. -/
theorem claim_C3_witness :
    (_get_bounding_box_from_user_str "1,2" =
      .error (.valueError
        ("Could not parse bounding box coordinates from input string: " ++ "1,2")) ∧
     "1,2".toList <:+:
       ("Could not parse bounding box coordinates from input string: " ++ "1,2").toList) ∧
    _get_bounding_box_from_user_str "1,b,c,d" =
      .error (.valueError "invalid coordinate format") :=
  ⟨(claim_C3_amended "1,2").1 (by decide),
   (claim_C3_amended "1,b,c,d").2 "1" "b" "c" "d" rfl (Or.inr (Or.inl rfl))⟩

/-! ## C5: shape of the emitted output -/

/-- The successful path of `run_layout`: the output stream receives one
JSON array of node/x/y records and the error stream the parser log. -/
theorem run_layout_success (env : LayoutEnv) (theargs : Args) (input plog : String)
    (net : NiceCXNetwork) (bb : Option BoundingBox)
    (coords coords2 : List (ℚ × ℚ)) (outS errS : IOStream)
    (hin : theargs.input = some input)
    (hfile : env.isfile input = true)
    (hsz : env.getsize input ≠ 0)
    (hparse : env.parse input = .ok (net, plog))
    (hbb : resolveBBox env.sqrt theargs net = .ok bb)
    (hlay : env.layoutAlg net theargs.layout = .ok coords)
    (htr : transformedCoords env theargs bb coords = .ok coords2)
    (hlen : net.nodeNames.length = coords2.length) :
    run_layout env theargs outS errS =
      (0,
       ⟨outS.items ++ [.json (.arr (List.zipWith
          (fun n c => Json.obj
            [("node", PyVal.toJson n), ("x", .num c.1), ("y", .num c.2)])
          net.nodeNames coords2))], true⟩,
       ⟨errS.items ++ [.text plog], true⟩) := by
  simp [run_layout, hin, hfile, hsz, runLayoutTry, hparse, hbb, hlay, htr,
    buildRecords_zip net.nodeNames coords2 hlen,
    IOStream.write, IOStream.dumpJson, IOStream.flush]

/-- C5: on success, the output stream receives exactly one JSON array with
one element per node, in the graph's node order, each element an object
with exactly the keys `node` (the native node identifier), `x` and `y`,
where `y` is the transformed raw y value with its sign not flipped;
nothing else is written to the output stream, and the parser's log output
goes to the error stream. -/
theorem claim_C5 (env : LayoutEnv) (theargs : Args) (input plog : String)
    (net : NiceCXNetwork) (bb : Option BoundingBox)
    (coords coords2 : List (ℚ × ℚ)) (outS errS : IOStream)
    (hin : theargs.input = some input)
    (hfile : env.isfile input = true)
    (hsz : env.getsize input ≠ 0)
    (hparse : env.parse input = .ok (net, plog))
    (hbb : resolveBBox env.sqrt theargs net = .ok bb)
    (hlay : env.layoutAlg net theargs.layout = .ok coords)
    (htr : transformedCoords env theargs bb coords = .ok coords2)
    (hlen : net.nodeNames.length = coords2.length) :
    run_layout env theargs outS errS =
      (0,
       ⟨outS.items ++ [.json (.arr (List.zipWith
          (fun n c => Json.obj
            [("node", PyVal.toJson n), ("x", .num c.1), ("y", .num c.2)])
          net.nodeNames coords2))], true⟩,
       ⟨errS.items ++ [.text plog], true⟩) :=
  run_layout_success env theargs input plog net bb coords coords2 outS errS
    hin hfile hsz hparse hbb hlay htr hlen

/-- Witness for C5: a concrete two-node run in default (derived-box) mode
with an identity fit. -/
theorem claim_C5_witness :
    run_layout
      ⟨fun _ => true, fun _ => 9,
       fun _ => .ok (⟨[PyVal.num 7, PyVal.str "n2"], none⟩, "parser log"),
       id,
       fun _ _ => .ok [(1, 2), (3, 4)],
       fun c _ => c⟩
      ⟨some "g.cx", "auto", none, none⟩ ⟨[], true⟩ ⟨[], true⟩ =
      (0,
       ⟨[.json (.arr
          [Json.obj [("node", .num 7), ("x", .num 1), ("y", .num 2)],
           Json.obj [("node", .str "n2"), ("x", .num 3), ("y", .num 4)]])], true⟩,
       ⟨[.text "parser log"], true⟩) := by
  have h := claim_C5
      ⟨fun _ => true, fun _ => 9,
       fun _ => .ok (⟨[PyVal.num 7, PyVal.str "n2"], none⟩, "parser log"),
       id,
       fun _ _ => .ok [(1, 2), (3, 4)],
       fun c _ => c⟩
      ⟨some "g.cx", "auto", none, none⟩ "g.cx" "parser log"
      ⟨[PyVal.num 7, PyVal.str "n2"], none⟩
      (some ⟨0, 0, max 550 (75 * 75 * 2), max 550 (75 * 75 * 2)⟩)
      [(1, 2), (3, 4)] [(1, 2), (3, 4)] ⟨[], true⟩ ⟨[], true⟩
      rfl rfl (by norm_num) rfl (by norm_num [resolveBBox,
        _get_bounding_box_based_on_node_size, _get_node_size_from_cyvisual_properties,
        Bind.bind, Except.bind, Pure.pure, Except.pure, Except.map,
        DEFAULT_BOX_SIZE, DEFAULT_NODE_SIZE]) rfl rfl rfl
  simpa using h

/-! ## C6: scale mode -/

/-- C6: in scale mode (an explicit scale factor `k` and, per the mutually
exclusive interface, no explicit rectangle), every emitted coordinate pair
equals `k` times the corresponding raw layout coordinate pair, and no
bounding box is applied: the result does not depend on the box-fitting
operation at all. -/
theorem claim_C6 (env : LayoutEnv) (f : List (ℚ × ℚ) → BoundingBox → List (ℚ × ℚ))
    (theargs : Args) (input plog : String) (net : NiceCXNetwork) (k : ℚ)
    (coords : List (ℚ × ℚ)) (outS errS : IOStream)
    (hsc : theargs.scale = some k) (hfi : theargs.fit_into = none)
    (hin : theargs.input = some input) (hfile : env.isfile input = true)
    (hsz : env.getsize input ≠ 0) (hparse : env.parse input = .ok (net, plog))
    (hlay : env.layoutAlg net theargs.layout = .ok coords)
    (hlen : net.nodeNames.length = coords.length) :
    run_layout env theargs outS errS =
      (0,
       ⟨outS.items ++ [.json (.arr (List.zipWith
          (fun n c => Json.obj
            [("node", PyVal.toJson n), ("x", .num (k * c.1)), ("y", .num (k * c.2))])
          net.nodeNames coords))], true⟩,
       ⟨errS.items ++ [.text plog], true⟩) ∧
    run_layout { env with fitIntoBox := f } theargs outS errS =
      run_layout env theargs outS errS := by
  have hbb : resolveBBox env.sqrt theargs net = .ok none := by
    simp [resolveBBox, hsc, hfi]
  have htr : transformedCoords env theargs none coords =
      .ok (coords.map fun c => (k * c.1, k * c.2)) := by
    simp [transformedCoords, hsc]
  have hlen2 : net.nodeNames.length = (coords.map fun c => (k * c.1, k * c.2)).length := by
    simpa using hlen
  constructor
  · have h := run_layout_success env theargs input plog net none coords
      (coords.map fun c => (k * c.1, k * c.2)) outS errS
      hin hfile hsz hparse hbb hlay htr hlen2
    rw [h]
    simp [List.zipWith_map_right]
  · simp [run_layout, hin, hfile, hsz, runLayoutTry, hparse, hlay,
      resolveBBox, hsc, hfi, transformedCoords,
      buildRecords_zip net.nodeNames _ hlen2]

/-- Witness for C6: a concrete one-node run with scale factor 3 and two
different box-fitting operations. -/
theorem claim_C6_witness :
    run_layout
      ⟨fun _ => true, fun _ => 9,
       fun _ => .ok (⟨[PyVal.num 5], none⟩, "log"),
       id, fun _ _ => .ok [(2, 7)], fun c _ => c⟩
      ⟨some "g.cx", "circle", some 3, none⟩ ⟨[], true⟩ ⟨[], true⟩ =
      (0,
       ⟨[.json (.arr [Json.obj [("node", .num 5), ("x", .num 6), ("y", .num 21)]])], true⟩,
       ⟨[.text "log"], true⟩) ∧
    run_layout
      ⟨fun _ => true, fun _ => 9,
       fun _ => .ok (⟨[PyVal.num 5], none⟩, "log"),
       id, fun _ _ => .ok [(2, 7)], fun _ _ => []⟩
      ⟨some "g.cx", "circle", some 3, none⟩ ⟨[], true⟩ ⟨[], true⟩ =
      run_layout
        ⟨fun _ => true, fun _ => 9,
         fun _ => .ok (⟨[PyVal.num 5], none⟩, "log"),
         id, fun _ _ => .ok [(2, 7)], fun c _ => c⟩
        ⟨some "g.cx", "circle", some 3, none⟩ ⟨[], true⟩ ⟨[], true⟩ := by
  have h := claim_C6
      ⟨fun _ => true, fun _ => 9,
       fun _ => .ok (⟨[PyVal.num 5], none⟩, "log"),
       id, fun _ _ => .ok [(2, 7)], fun c _ => c⟩
      (fun _ _ => []) ⟨some "g.cx", "circle", some 3, none⟩ "g.cx" "log"
      ⟨[PyVal.num 5], none⟩ 3 [(2, 7)] ⟨[], true⟩ ⟨[], true⟩
      rfl rfl rfl rfl (by norm_num) rfl rfl rfl
  refine ⟨?_, h.2⟩
  rw [h.1]
  norm_num [PyVal.toJson]

/-! ## C7: exit codes -/

/-- C7: `run_layout` returns 3 when the input path does not reference an
existing file (or is `None`) and 4 when the input file is zero-length,
in both cases writing a plain message to the error stream before any
parsing (the result depends on nothing but the path checks); any
exception raised during parse, box resolution, layout, or serialization
is caught, its message is written to the error stream, and `run_layout`
returns 5. -/
theorem claim_C7 :
    (∀ (env : LayoutEnv) (theargs : Args) (outS errS : IOStream),
      theargs.input = none →
      run_layout env theargs outS errS = (3, outS, errS.write "None is not a file")) ∧
    (∀ (env : LayoutEnv) (theargs : Args) (input : String) (outS errS : IOStream),
      theargs.input = some input → env.isfile input = false →
      run_layout env theargs outS errS =
        (3, outS, errS.write (input ++ " is not a file"))) ∧
    (∀ (env : LayoutEnv) (theargs : Args) (input : String) (outS errS : IOStream),
      theargs.input = some input → env.isfile input = true → env.getsize input = 0 →
      run_layout env theargs outS errS =
        (4, outS, errS.write (input ++ " is an empty file"))) ∧
    (∀ (env : LayoutEnv) (theargs : Args) (input : String) (outS errS : IOStream)
        (e : PyErr),
      theargs.input = some input → env.isfile input = true → env.getsize input ≠ 0 →
      env.parse input = .error e →
      run_layout env theargs outS errS =
        (5, outS.flush, ((errS.write e.message).flush))) ∧
    (∀ (env : LayoutEnv) (theargs : Args) (input plog : String)
        (net : NiceCXNetwork) (outS errS : IOStream) (e : PyErr),
      theargs.input = some input → env.isfile input = true → env.getsize input ≠ 0 →
      env.parse input = .ok (net, plog) →
      resolveBBox env.sqrt theargs net = .error e →
      run_layout env theargs outS errS =
        (5, outS.flush, (((errS.write plog).write e.message).flush))) ∧
    (∀ (env : LayoutEnv) (theargs : Args) (input plog : String)
        (net : NiceCXNetwork) (bb : Option BoundingBox) (outS errS : IOStream) (e : PyErr),
      theargs.input = some input → env.isfile input = true → env.getsize input ≠ 0 →
      env.parse input = .ok (net, plog) →
      resolveBBox env.sqrt theargs net = .ok bb →
      env.layoutAlg net theargs.layout = .error e →
      run_layout env theargs outS errS =
        (5, outS.flush, (((errS.write plog).write e.message).flush))) ∧
    (∀ (env : LayoutEnv) (theargs : Args) (input plog : String)
        (net : NiceCXNetwork) (bb : Option BoundingBox)
        (coords coords2 : List (ℚ × ℚ)) (outS errS : IOStream) (e : PyErr),
      theargs.input = some input → env.isfile input = true → env.getsize input ≠ 0 →
      env.parse input = .ok (net, plog) →
      resolveBBox env.sqrt theargs net = .ok bb →
      env.layoutAlg net theargs.layout = .ok coords →
      transformedCoords env theargs bb coords = .ok coords2 →
      buildRecords net.nodeNames coords2 = .error e →
      run_layout env theargs outS errS =
        (5, outS.flush, (((errS.write plog).write e.message).flush))) := by
  refine ⟨?_, ?_, ?_, ?_, ?_, ?_, ?_⟩
  · intro env theargs outS errS hin
    simp [run_layout, hin]
  · intro env theargs input outS errS hin hfile
    simp [run_layout, hin, hfile]
  · intro env theargs input outS errS hin hfile hsz
    simp [run_layout, hin, hfile, hsz]
  · intro env theargs input outS errS e hin hfile hsz hparse
    simp [run_layout, hin, hfile, hsz, runLayoutTry, hparse]
  · intro env theargs input plog net outS errS e hin hfile hsz hparse hbb
    simp [run_layout, hin, hfile, hsz, runLayoutTry, hparse, hbb]
  · intro env theargs input plog net bb outS errS e hin hfile hsz hparse hbb hlay
    simp [run_layout, hin, hfile, hsz, runLayoutTry, hparse, hbb, hlay]
  · intro env theargs input plog net bb coords coords2 outS errS e hin hfile hsz
      hparse hbb hlay htr hrec
    simp [run_layout, hin, hfile, hsz, runLayoutTry, hparse, hbb, hlay, htr, hrec]

/-- Witness for C7 at concrete runs: a missing file, an empty file, and a
parse failure. -/
theorem claim_C7_witness :
    run_layout
      ⟨fun _ => false, fun _ => 1, fun _ => .error (.valueError "pe"), id,
       fun _ _ => .error (.valueError "le"), fun c _ => c⟩
      ⟨some "in.cx", "auto", none, none⟩ ⟨[], true⟩ ⟨[], true⟩ =
      (3, ⟨[], true⟩, IOStream.write ⟨[], true⟩ ("in.cx" ++ " is not a file")) ∧
    run_layout
      ⟨fun _ => true, fun _ => 0, fun _ => .error (.valueError "pe"), id,
       fun _ _ => .error (.valueError "le"), fun c _ => c⟩
      ⟨some "in.cx", "auto", none, none⟩ ⟨[], true⟩ ⟨[], true⟩ =
      (4, ⟨[], true⟩, IOStream.write ⟨[], true⟩ ("in.cx" ++ " is an empty file")) ∧
    run_layout
      ⟨fun _ => true, fun _ => 1, fun _ => .error (.valueError "pe"), id,
       fun _ _ => .error (.valueError "le"), fun c _ => c⟩
      ⟨some "in.cx", "auto", none, none⟩ ⟨[], true⟩ ⟨[], true⟩ =
      (5, IOStream.flush ⟨[], true⟩,
       IOStream.flush (IOStream.write ⟨[], true⟩ (PyErr.message (.valueError "pe")))) :=
  ⟨claim_C7.2.1 _ _ "in.cx" _ _ rfl rfl,
   claim_C7.2.2.1 _ _ "in.cx" _ _ rfl rfl rfl,
   claim_C7.2.2.2.1 _ _ "in.cx" _ _ (.valueError "pe") rfl rfl (by norm_num) rfl⟩

/-! ## C8: stream flushing on exit paths -/

/-- Counterexample to C8 as stated: on the missing-file exit path (status
3) `run_layout` returns with the error stream unflushed after the message
was written — the early validation returns happen before the
`try`/`finally` block, whose `finally` clause alone performs the
flushes. -/
theorem claim_C8_counterexample :
    (run_layout
      ⟨fun _ => false, fun _ => 1, fun _ => .error (.valueError "pe"), id,
       fun _ _ => .error (.valueError "le"), fun c _ => c⟩
      ⟨some "missing.cx", "auto", none, none⟩ ⟨[], true⟩ ⟨[], true⟩).1 = 3 ∧
    (run_layout
      ⟨fun _ => false, fun _ => 1, fun _ => .error (.valueError "pe"), id,
       fun _ _ => .error (.valueError "le"), fun c _ => c⟩
      ⟨some "missing.cx", "auto", none, none⟩ ⟨[], true⟩ ⟨[], true⟩).2.2.items =
      [.text "missing.cx is not a file"] ∧
    (run_layout
      ⟨fun _ => false, fun _ => 1, fun _ => .error (.valueError "pe"), id,
       fun _ _ => .error (.valueError "le"), fun c _ => c⟩
      ⟨some "missing.cx", "auto", none, none⟩ ⟨[], true⟩ ⟨[], true⟩).2.2.flushed =
      false :=
  ⟨rfl, rfl, rfl⟩

/-- C8 (amended): on every exit path that reaches the `try` block of
`run_layout` — success and every caught exception — both the output
stream and the error stream are flushed before the status code is
returned; the early validation paths (statuses 3 and 4) return without
flushing. -/
theorem claim_C8_amended (env : LayoutEnv) (theargs : Args) (input : String)
    (outS errS : IOStream) (hin : theargs.input = some input)
    (hfile : env.isfile input = true) (hsz : env.getsize input ≠ 0) :
    (run_layout env theargs outS errS).2.1.flushed = true ∧
    (run_layout env theargs outS errS).2.2.flushed = true := by
  simp [run_layout, hin, hfile, hsz, IOStream.flush]

/-- Witness for C8 (amended) at a concrete failing-parse run. -/
theorem claim_C8_witness :
    (run_layout
      ⟨fun _ => true, fun _ => 1, fun _ => .error (.valueError "pe"), id,
       fun _ _ => .error (.valueError "le"), fun c _ => c⟩
      ⟨some "g.cx", "auto", none, none⟩ ⟨[], false⟩ ⟨[], false⟩).2.1.flushed = true ∧
    (run_layout
      ⟨fun _ => true, fun _ => 1, fun _ => .error (.valueError "pe"), id,
       fun _ _ => .error (.valueError "le"), fun c _ => c⟩
      ⟨some "g.cx", "auto", none, none⟩ ⟨[], false⟩ ⟨[], false⟩).2.2.flushed = true :=
  claim_C8_amended _ _ "g.cx" _ _ rfl rfl (by norm_num)

/-! ## C9: mutual exclusion of the two explicit modes -/

/-- Scanning the command line preserves the mutual-exclusion invariant:
a successfully parsed state never has both `--scale` and `--fit_into`
set, because whichever of the two is seen second is rejected. -/
theorem parseArgsGo_excl (args : List String) (st st2 : ArgState)
    (hst : st.scale = none ∨ st.fit_into = none)
    (h : parseArgsGo args st = .ok st2) :
    st2.scale = none ∨ st2.fit_into = none := by
  induction args, st using parseArgsGo.induct with
  | case1 st =>
      simp only [parseArgsGo, Except.ok.injEq] at h
      subst h
      exact hst
  | case2 st => simp [parseArgsGo] at h
  | case3 st v rest2 hv ih =>
      rw [parseArgsGo, if_pos hv] at h
      exact ih hst h
  | case4 st v rest2 hv =>
      rw [parseArgsGo, if_neg hv] at h
      cases h
  | case5 st => simp [parseArgsGo] at h
  | case6 st v rest2 hv =>
      rw [parseArgsGo] at h
      rw [hv] at h
      cases h
  | case7 st v rest2 q hv hfi =>
      rw [parseArgsGo] at h
      simp only [hv] at h
      rw [if_pos hfi] at h
      cases h
  | case8 st v rest2 q hv hfi ih =>
      rw [parseArgsGo] at h
      simp only [hv] at h
      rw [if_neg hfi] at h
      exact ih (Or.inr (Option.not_isSome_iff_eq_none.mp hfi)) h
  | case9 st => simp [parseArgsGo] at h
  | case10 st v rest2 hsc =>
      rw [parseArgsGo, if_pos hsc] at h
      cases h
  | case11 st v rest2 hsc ih =>
      rw [parseArgsGo, if_neg hsc] at h
      exact ih (Or.inl (Option.not_isSome_iff_eq_none.mp hsc)) h
  | case12 tok rest st hne1 hne2 hne3 hpre =>
      rw [parseArgsGo] at h
      · rw [if_pos hpre] at h
        cases h
      · exact hne1
      · exact hne2
      · exact hne3
  | case13 tok rest st hne1 hne2 hne3 hpre hinp ih =>
      rw [parseArgsGo] at h
      · rw [if_neg hpre] at h
        rw [hinp] at h
        exact ih hst h
      · exact hne1
      · exact hne2
      · exact hne3
  | case14 tok rest st hne1 hne2 hne3 hpre input hinp =>
      rw [parseArgsGo] at h
      · rw [if_neg hpre] at h
        rw [hinp] at h
        cases h
      · exact hne1
      · exact hne2
      · exact hne3

/-- C9: a command line that sets both `--fit_into` and `--scale` is
rejected at argument-parsing time — concretely demonstrated on one such
command line — so that every successfully parsed argument set has at most
one of the two explicit modes; hence at most one of them ever reaches
`run_layout`. -/
theorem claim_C9 :
    (∀ (argv : List String) (args : Args), _parse_arguments argv = .ok args →
      args.scale = none ∨ args.fit_into = none) ∧
    _parse_arguments ["input.cx", "--scale", "2", "--fit_into", "1,2,3,4"] =
      .error "argument --fit_into: not allowed with argument --scale" ∧
    _parse_arguments ["input.cx", "--fit_into", "1,2,3,4", "--scale", "2"] =
      .error "argument --scale: not allowed with argument --fit_into" := by
  refine ⟨?_, by decide, by decide⟩
  intro argv args h
  unfold _parse_arguments at h
  cases hgo : parseArgsGo argv ⟨none, "auto", none, none⟩ with
  | error e =>
      simp only [hgo] at h
      exact Except.noConfusion h
  | ok st =>
      simp only [hgo] at h
      cases hin : st.input with
      | none =>
          simp only [hin] at h
          exact Except.noConfusion h
      | some i =>
          simp only [hin] at h
          cases h
          have hexcl := parseArgsGo_excl argv ⟨none, "auto", none, none⟩ st
            (Or.inl rfl) hgo
          simpa using hexcl

/-- Witness for C9: a command line using only `--scale` parses
successfully, and the parsed arguments indeed do not set both modes. -/
theorem claim_C9_witness :
    (⟨some "input.cx", "auto", some 2, none⟩ : Args).scale = none ∨
    (⟨some "input.cx", "auto", some 2, none⟩ : Args).fit_into = none :=
  claim_C9.1 ["input.cx", "--scale", "2"] ⟨some "input.cx", "auto", some 2, none⟩ rfl

end CDIGraphLayout
